import Mathlib

/-!
Shallow embedding of the settings-persistence component of the File Merger
repository (src/core/settings_manager.py), together with proofs of the
specification claims about it.

Modelling conventions:
- Python runtime values stored in settings fields are JSON scalars; we model
  them with the `Value` type.  ISO-8601 timestamp strings produced by
  `datetime.now().isoformat()` compare lexicographically exactly as their
  instants compare numerically, so we abstract a timestamp string as
  `Value.vTime t` with `t : Nat` the instant; each operation that can read the
  clock takes the current instant as an explicit `now` argument.
- The `@dataclass` performs no type checking: `UserSettings(**data)` accepts a
  value of any runtime type for any field, raises `TypeError` on an unexpected
  keyword, and fills absent fields from the declared defaults.  Accordingly
  every field of the embedded record has type `Value`, and the keyword
  constructor is `mkUserSettings`, returning `none` when Python would raise.
- File-system state is a map from path strings to file contents; a file whose
  bytes fail `json.load` is `FileContent.malformed`, valid JSON that is not an
  object (so that `**data` raises `TypeError`) is `FileContent.nonObject`, and
  a JSON object is `FileContent.jsonObject kvs` with `kvs` the parsed dict
  (keys distinct, in insertion order).
- I/O failures are injected through the `WriteOutcome` argument of the write
  operations: `ok` (the write completes), `openFail` (`open(..., "w")` itself
  raises, leaving the file untouched), `writeFail` (`open` succeeded, so the
  file was truncated, and `json.dump` then raised partway, leaving bytes that
  do not parse: `FileContent.malformed`).
- Attribute access (`hasattr`/`getattr`/`setattr` in `get_setting` and
  `set_setting`) sees, besides the declared fields, names the instance
  inherits from its class (`__init__`, `__class__`, ...) and instance
  attributes a previous `setattr` created.  `PyInstance` and `getattrOpt`
  model this full lookup, the inherited objects abstracted as opaque
  `Value.vClassObj` values; `get_setting`/`set_setting` over a bare
  `UserSettings` are the same methods under the restriction that the key is
  a declared field or no attribute at all.
-/

/-- Runtime values storable in a settings field (the JSON scalars the
repository uses).  `vTime t` stands for the ISO-8601 string of instant `t`;
`vClassObj k` abstracts the runtime object bound to the class attribute
named `k` that a dataclass instance inherits (a bound method, the class
itself, the docstring, the fields mapping, ...). -/
inductive Value where
  | vBool : Bool → Value
  | vInt : Int → Value
  | vStr : String → Value
  | vTime : Nat → Value
  | vNull : Value
  | vClassObj : String → Value
deriving DecidableEq, Repr

/-- Field names of the `UserSettings` dataclass, in declaration order
(src/core/settings_manager.py lines 18-68). -/
inductive FieldName where
  | image_default_layout
  | image_default_spacing
  | image_default_quality
  | image_default_resize_mode
  | image_default_filter
  | image_add_watermark
  | image_watermark_text
  | image_watermark_position
  | image_watermark_opacity
  | text_default_separator
  | text_default_encoding
  | text_add_line_numbers
  | text_add_timestamps
  | text_strip_whitespace
  | text_markdown_export
  | output_use_timestamp
  | output_auto_overwrite
  | output_create_backup
  | output_default_directory
  | ui_show_file_size
  | ui_show_statistics
  | ui_confirm_before_process
  | ui_clear_screen
  | ui_color_output
  | performance_max_workers
  | performance_chunk_size
  | performance_enable_cache
  | performance_cache_size_mb
  | advanced_debug_mode
  | advanced_log_level
  | advanced_backup_count
  | advanced_auto_cleanup
  | last_modified
  | version
deriving DecidableEq, Repr

/-- The attribute-name string of a field. -/
def FieldName.toKey : FieldName → String
  | .image_default_layout => "image_default_layout"
  | .image_default_spacing => "image_default_spacing"
  | .image_default_quality => "image_default_quality"
  | .image_default_resize_mode => "image_default_resize_mode"
  | .image_default_filter => "image_default_filter"
  | .image_add_watermark => "image_add_watermark"
  | .image_watermark_text => "image_watermark_text"
  | .image_watermark_position => "image_watermark_position"
  | .image_watermark_opacity => "image_watermark_opacity"
  | .text_default_separator => "text_default_separator"
  | .text_default_encoding => "text_default_encoding"
  | .text_add_line_numbers => "text_add_line_numbers"
  | .text_add_timestamps => "text_add_timestamps"
  | .text_strip_whitespace => "text_strip_whitespace"
  | .text_markdown_export => "text_markdown_export"
  | .output_use_timestamp => "output_use_timestamp"
  | .output_auto_overwrite => "output_auto_overwrite"
  | .output_create_backup => "output_create_backup"
  | .output_default_directory => "output_default_directory"
  | .ui_show_file_size => "ui_show_file_size"
  | .ui_show_statistics => "ui_show_statistics"
  | .ui_confirm_before_process => "ui_confirm_before_process"
  | .ui_clear_screen => "ui_clear_screen"
  | .ui_color_output => "ui_color_output"
  | .performance_max_workers => "performance_max_workers"
  | .performance_chunk_size => "performance_chunk_size"
  | .performance_enable_cache => "performance_enable_cache"
  | .performance_cache_size_mb => "performance_cache_size_mb"
  | .advanced_debug_mode => "advanced_debug_mode"
  | .advanced_log_level => "advanced_log_level"
  | .advanced_backup_count => "advanced_backup_count"
  | .advanced_auto_cleanup => "advanced_auto_cleanup"
  | .last_modified => "last_modified"
  | .version => "version"

/-- All fields, in dataclass declaration order. -/
def fieldList : List FieldName :=
  [.image_default_layout, .image_default_spacing, .image_default_quality,
   .image_default_resize_mode, .image_default_filter, .image_add_watermark,
   .image_watermark_text, .image_watermark_position, .image_watermark_opacity,
   .text_default_separator, .text_default_encoding, .text_add_line_numbers,
   .text_add_timestamps, .text_strip_whitespace, .text_markdown_export,
   .output_use_timestamp, .output_auto_overwrite, .output_create_backup,
   .output_default_directory, .ui_show_file_size, .ui_show_statistics,
   .ui_confirm_before_process, .ui_clear_screen, .ui_color_output,
   .performance_max_workers, .performance_chunk_size, .performance_enable_cache,
   .performance_cache_size_mb, .advanced_debug_mode, .advanced_log_level,
   .advanced_backup_count, .advanced_auto_cleanup, .last_modified, .version]

/-- Resolution of a name string to a declared field, the embedding of
keyword-argument binding on the dataclass (the generated `__init__` accepts
exactly the field names) and of instance-dict lookup for declared fields:
`none` means the name is not a declared field of `UserSettings`.  CPython
attribute lookup can still find such a name on the class (`__init__`,
`__class__`, ...); that fuller lookup is `getattrOpt` below. -/
def parseKey (k : String) : Option FieldName :=
  if k = "image_default_layout" then some .image_default_layout
  else if k = "image_default_spacing" then some .image_default_spacing
  else if k = "image_default_quality" then some .image_default_quality
  else if k = "image_default_resize_mode" then some .image_default_resize_mode
  else if k = "image_default_filter" then some .image_default_filter
  else if k = "image_add_watermark" then some .image_add_watermark
  else if k = "image_watermark_text" then some .image_watermark_text
  else if k = "image_watermark_position" then some .image_watermark_position
  else if k = "image_watermark_opacity" then some .image_watermark_opacity
  else if k = "text_default_separator" then some .text_default_separator
  else if k = "text_default_encoding" then some .text_default_encoding
  else if k = "text_add_line_numbers" then some .text_add_line_numbers
  else if k = "text_add_timestamps" then some .text_add_timestamps
  else if k = "text_strip_whitespace" then some .text_strip_whitespace
  else if k = "text_markdown_export" then some .text_markdown_export
  else if k = "output_use_timestamp" then some .output_use_timestamp
  else if k = "output_auto_overwrite" then some .output_auto_overwrite
  else if k = "output_create_backup" then some .output_create_backup
  else if k = "output_default_directory" then some .output_default_directory
  else if k = "ui_show_file_size" then some .ui_show_file_size
  else if k = "ui_show_statistics" then some .ui_show_statistics
  else if k = "ui_confirm_before_process" then some .ui_confirm_before_process
  else if k = "ui_clear_screen" then some .ui_clear_screen
  else if k = "ui_color_output" then some .ui_color_output
  else if k = "performance_max_workers" then some .performance_max_workers
  else if k = "performance_chunk_size" then some .performance_chunk_size
  else if k = "performance_enable_cache" then some .performance_enable_cache
  else if k = "performance_cache_size_mb" then some .performance_cache_size_mb
  else if k = "advanced_debug_mode" then some .advanced_debug_mode
  else if k = "advanced_log_level" then some .advanced_log_level
  else if k = "advanced_backup_count" then some .advanced_backup_count
  else if k = "advanced_auto_cleanup" then some .advanced_auto_cleanup
  else if k = "last_modified" then some .last_modified
  else if k = "version" then some .version
  else none

/-- The `UserSettings` dataclass (src/core/settings_manager.py lines 18-68):
one `Value` per field, with the declared default as the Lean field default.
`last_modified` has no fixed default (its dataclass default factory reads the
clock), so `defaultSettings` supplies it. -/
structure UserSettings where
  image_default_layout : Value := .vStr "vertical"
  image_default_spacing : Value := .vInt 10
  image_default_quality : Value := .vInt 95
  image_default_resize_mode : Value := .vStr "none"
  image_default_filter : Value := .vStr "none"
  image_add_watermark : Value := .vBool false
  image_watermark_text : Value := .vStr "© 2024"
  image_watermark_position : Value := .vStr "bottom-right"
  image_watermark_opacity : Value := .vInt 128
  text_default_separator : Value := .vStr "simple"
  text_default_encoding : Value := .vStr "utf-8"
  text_add_line_numbers : Value := .vBool false
  text_add_timestamps : Value := .vBool false
  text_strip_whitespace : Value := .vBool false
  text_markdown_export : Value := .vBool false
  output_use_timestamp : Value := .vBool true
  output_auto_overwrite : Value := .vBool false
  output_create_backup : Value := .vBool true
  output_default_directory : Value := .vStr "output"
  ui_show_file_size : Value := .vBool true
  ui_show_statistics : Value := .vBool true
  ui_confirm_before_process : Value := .vBool true
  ui_clear_screen : Value := .vBool false
  ui_color_output : Value := .vBool true
  performance_max_workers : Value := .vInt 4
  performance_chunk_size : Value := .vInt 8192
  performance_enable_cache : Value := .vBool true
  performance_cache_size_mb : Value := .vInt 128
  advanced_debug_mode : Value := .vBool false
  advanced_log_level : Value := .vStr "INFO"
  advanced_backup_count : Value := .vInt 5
  advanced_auto_cleanup : Value := .vBool true
  last_modified : Value
  version : Value := .vStr "2.0.0"
deriving DecidableEq, Repr

/-- The record `UserSettings()` built with every default, the clock read at
instant `now` by the `last_modified` default factory. -/
def defaultSettings (now : Nat) : UserSettings :=
  { last_modified := Value.vTime now }

/-- Read one field of the record (attribute read with a known field). -/
def getF (s : UserSettings) : FieldName → Value
  | .image_default_layout => s.image_default_layout
  | .image_default_spacing => s.image_default_spacing
  | .image_default_quality => s.image_default_quality
  | .image_default_resize_mode => s.image_default_resize_mode
  | .image_default_filter => s.image_default_filter
  | .image_add_watermark => s.image_add_watermark
  | .image_watermark_text => s.image_watermark_text
  | .image_watermark_position => s.image_watermark_position
  | .image_watermark_opacity => s.image_watermark_opacity
  | .text_default_separator => s.text_default_separator
  | .text_default_encoding => s.text_default_encoding
  | .text_add_line_numbers => s.text_add_line_numbers
  | .text_add_timestamps => s.text_add_timestamps
  | .text_strip_whitespace => s.text_strip_whitespace
  | .text_markdown_export => s.text_markdown_export
  | .output_use_timestamp => s.output_use_timestamp
  | .output_auto_overwrite => s.output_auto_overwrite
  | .output_create_backup => s.output_create_backup
  | .output_default_directory => s.output_default_directory
  | .ui_show_file_size => s.ui_show_file_size
  | .ui_show_statistics => s.ui_show_statistics
  | .ui_confirm_before_process => s.ui_confirm_before_process
  | .ui_clear_screen => s.ui_clear_screen
  | .ui_color_output => s.ui_color_output
  | .performance_max_workers => s.performance_max_workers
  | .performance_chunk_size => s.performance_chunk_size
  | .performance_enable_cache => s.performance_enable_cache
  | .performance_cache_size_mb => s.performance_cache_size_mb
  | .advanced_debug_mode => s.advanced_debug_mode
  | .advanced_log_level => s.advanced_log_level
  | .advanced_backup_count => s.advanced_backup_count
  | .advanced_auto_cleanup => s.advanced_auto_cleanup
  | .last_modified => s.last_modified
  | .version => s.version

/-- Write one field of the record (attribute write with a known field). -/
def setF (s : UserSettings) : FieldName → Value → UserSettings
  | .image_default_layout, v => { s with image_default_layout := v }
  | .image_default_spacing, v => { s with image_default_spacing := v }
  | .image_default_quality, v => { s with image_default_quality := v }
  | .image_default_resize_mode, v => { s with image_default_resize_mode := v }
  | .image_default_filter, v => { s with image_default_filter := v }
  | .image_add_watermark, v => { s with image_add_watermark := v }
  | .image_watermark_text, v => { s with image_watermark_text := v }
  | .image_watermark_position, v => { s with image_watermark_position := v }
  | .image_watermark_opacity, v => { s with image_watermark_opacity := v }
  | .text_default_separator, v => { s with text_default_separator := v }
  | .text_default_encoding, v => { s with text_default_encoding := v }
  | .text_add_line_numbers, v => { s with text_add_line_numbers := v }
  | .text_add_timestamps, v => { s with text_add_timestamps := v }
  | .text_strip_whitespace, v => { s with text_strip_whitespace := v }
  | .text_markdown_export, v => { s with text_markdown_export := v }
  | .output_use_timestamp, v => { s with output_use_timestamp := v }
  | .output_auto_overwrite, v => { s with output_auto_overwrite := v }
  | .output_create_backup, v => { s with output_create_backup := v }
  | .output_default_directory, v => { s with output_default_directory := v }
  | .ui_show_file_size, v => { s with ui_show_file_size := v }
  | .ui_show_statistics, v => { s with ui_show_statistics := v }
  | .ui_confirm_before_process, v => { s with ui_confirm_before_process := v }
  | .ui_clear_screen, v => { s with ui_clear_screen := v }
  | .ui_color_output, v => { s with ui_color_output := v }
  | .performance_max_workers, v => { s with performance_max_workers := v }
  | .performance_chunk_size, v => { s with performance_chunk_size := v }
  | .performance_enable_cache, v => { s with performance_enable_cache := v }
  | .performance_cache_size_mb, v => { s with performance_cache_size_mb := v }
  | .advanced_debug_mode, v => { s with advanced_debug_mode := v }
  | .advanced_log_level, v => { s with advanced_log_level := v }
  | .advanced_backup_count, v => { s with advanced_backup_count := v }
  | .advanced_auto_cleanup, v => { s with advanced_auto_cleanup := v }
  | .last_modified, v => { s with last_modified := v }
  | .version, v => { s with version := v }

/-- The embedding of `dataclasses.asdict`: every field as a key-value pair in
declaration order. -/
def asdict (s : UserSettings) : List (String × Value) :=
  fieldList.map (fun f => (f.toKey, getF s f))

/-- The embedding of the keyword constructor `UserSettings(**data)`:
`TypeError` (= `none`) when some key of `data` is not a field name, otherwise
the record whose fields take the given values, absent fields defaulted, with
the `last_modified` default factory reading the clock at `now`. -/
def mkUserSettings (now : Nat) (kvs : List (String × Value)) : Option UserSettings :=
  if kvs.all (fun kv => (parseKey kv.1).isSome) then
    some (kvs.foldl
      (fun s kv =>
        match parseKey kv.1 with
        | some f => setF s f kv.2
        | none => s)
      (defaultSettings now))
  else none

/-- Content of a file as seen through `json.load` and keyword expansion:
bytes that fail to parse as JSON (`malformed`), valid JSON that is not an
object so that `UserSettings(**data)` raises `TypeError` (`nonObject`), or a
parsed JSON object (`jsonObject`). -/
inductive FileContent where
  | malformed : FileContent
  | nonObject : FileContent
  | jsonObject : List (String × Value) → FileContent
deriving DecidableEq, Repr

/-- File-system state: which paths hold which contents. -/
structure FS where
  files : String → Option FileContent

/-- Write `c` at path `p` (creating or truncating the file there). -/
def FS.write (fs : FS) (p : String) (c : FileContent) : FS :=
  ⟨fun q => if q = p then some c else fs.files q⟩

/-- The main settings file, `SettingsManager.SETTINGS_FILE = BASE_DIR /
"settings.json"` (paths are modelled relative to `BASE_DIR`). -/
def settingsPath : String := "settings.json"

/-- Path of the backup file written at instant `t`:
`settings_backup_<timestamp>.json`, the timestamp abstracted by the instant. -/
def backupPath (t : Nat) : String :=
  "settings_backup_" ++ toString t ++ ".json"

/-- Outcome injected into a file write: `ok` (completed), `openFail`
(`open(..., "w")` raised, the file untouched), `writeFail` (`open` truncated
the file and `json.dump` then raised partway, leaving unparseable bytes). -/
inductive WriteOutcome where
  | ok : WriteOutcome
  | openFail : WriteOutcome
  | writeFail : WriteOutcome
deriving DecidableEq, Repr

/-- `SettingsManager.load_settings` (lines 80-93): if the settings file
exists, try `json.load` then `UserSettings(**data)`; any exception is caught
and, as when the file does not exist, a fresh default record is returned. -/
def load_settings (fs : FS) (now : Nat) : UserSettings :=
  match fs.files settingsPath with
  | some (.jsonObject kvs) =>
      match mkUserSettings now kvs with
      | some s => s
      | none => defaultSettings now
  | some .malformed => defaultSettings now
  | some .nonObject => defaultSettings now
  | none => defaultSettings now

/-- `SettingsManager.save_settings` (lines 95-107): stamp
`last_modified = datetime.now().isoformat()`, then dump `asdict(settings)` to
the settings file; any exception is caught and `False` returned.  The stamp
precedes the write, so it survives a failed write.  Returns the new in-memory
record, the new file system, and the boolean result. -/
def save_settings (s : UserSettings) (fs : FS) (now : Nat) (w : WriteOutcome) :
    UserSettings × FS × Bool :=
  let stamped := { s with last_modified := Value.vTime now }
  match w with
  | .ok => (stamped, fs.write settingsPath (.jsonObject (asdict stamped)), true)
  | .openFail => (stamped, fs, false)
  | .writeFail => (stamped, fs.write settingsPath .malformed, false)

/-- `SettingsManager.reset_to_defaults` (lines 109-112): replace the record
with `UserSettings()`, whose `last_modified` default factory reads the clock. -/
def reset_to_defaults (now : Nat) : UserSettings :=
  defaultSettings now

/-- `SettingsManager.backup_settings` (lines 114-127): dump
`asdict(settings)` to a timestamp-named backup file, returning the path, or
`None` when an exception was caught.  The in-memory record is not touched. -/
def backup_settings (s : UserSettings) (fs : FS) (now : Nat) (w : WriteOutcome) :
    FS × Option String :=
  match w with
  | .ok => (fs.write (backupPath now) (.jsonObject (asdict s)), some (backupPath now))
  | .openFail => (fs, none)
  | .writeFail => (fs.write (backupPath now) .malformed, none)

/-- `SettingsManager.restore_settings` (lines 129-140): `json.load` the given
file and replace the record with `UserSettings(**data)`; any exception (file
missing, parse failure, bad keyword) is caught, leaving the record as it was
and returning `False`. -/
def restore_settings (s : UserSettings) (fs : FS) (now : Nat) (path : String) :
    UserSettings × Bool :=
  match fs.files path with
  | some (.jsonObject kvs) =>
      match mkUserSettings now kvs with
      | some s2 => (s2, true)
      | none => (s, false)
  | _ => (s, false)

/-- `SettingsManager.export_settings` (lines 142-152): dump
`asdict(settings)` to the given path, `False` on a caught exception. -/
def export_settings (s : UserSettings) (fs : FS) (path : String) (w : WriteOutcome) :
    FS × Bool :=
  match w with
  | .ok => (fs.write path (.jsonObject (asdict s)), true)
  | .openFail => (fs, false)
  | .writeFail => (fs.write path .malformed, false)

/-- `SettingsManager.import_settings` (lines 154-165): same body as
`restore_settings` against a caller-supplied path. -/
def import_settings (s : UserSettings) (fs : FS) (now : Nat) (path : String) :
    UserSettings × Bool :=
  match fs.files path with
  | some (.jsonObject kvs) =>
      match mkUserSettings now kvs with
      | some s2 => (s2, true)
      | none => (s, false)
  | _ => (s, false)

/-- `SettingsManager.get_setting` (lines 167-169),
`getattr(self.settings, key, default)`, under the restriction that `key` is
a declared field or no attribute of the instance at all: for a name the
instance inherits from its class, `getattr` returns that attribute and not
the default, which this field-level definition does not see; the faithful
lookup for such keys is `get_setting_attr` below. -/
def get_setting (s : UserSettings) (key : String) (dflt : Value) : Value :=
  match parseKey key with
  | some f => getF s f
  | none => dflt

/-- `SettingsManager.set_setting` (lines 171-183), if
`hasattr(self.settings, key)` then `setattr` and return `True`, else log a
warning and return `False`, under the same restriction as `get_setting`:
`hasattr` is also true for names inherited from the class, which this
field-level definition maps to the unknown-key branch; the faithful version
for such keys is `set_setting_attr` below. -/
def set_setting (s : UserSettings) (key : String) (v : Value) : UserSettings × Bool :=
  match parseKey key with
  | some f => (setF s f v, true)
  | none => (s, false)

/-- Python numeric coercion in an order comparison against an `int` literal:
ints compare as themselves, `bool` as 0/1; a string, timestamp string or
`None` raises `TypeError` (= `none`). -/
def Value.asNum : Value → Option Int
  | .vInt n => some n
  | .vBool b => some (if b then 1 else 0)
  | _ => none

/-- Membership test of `advanced_log_level` in
`["DEBUG", "INFO", "WARNING", "ERROR", "CRITICAL"]` (Python `in`, which never
raises: values of other runtime types simply compare unequal). -/
def isValidLogLevel (v : Value) : Bool :=
  v = .vStr "DEBUG" ∨ v = .vStr "INFO" ∨ v = .vStr "WARNING" ∨
    v = .vStr "ERROR" ∨ v = .vStr "CRITICAL"

/-- `SettingsManager.validate_settings` (lines 210-236): a non-mutating scan
building `issues`, a dict from category to problem strings; a category key is
created (by `setdefault`) only when its first problem is appended, so the
dict, modelled as a list in insertion order, holds exactly the nonempty
categories.  `none` models the `TypeError` Python raises when one of the five
numeric fields compared here holds a non-numeric runtime value (this method
has no exception handler). -/
def validate_settings (s : UserSettings) : Option (List (String × List String)) := do
  let q ← s.image_default_quality.asNum
  let sp ← s.image_default_spacing.asNum
  let op ← s.image_watermark_opacity.asNum
  let mw ← s.performance_max_workers.asNum
  let cs ← s.performance_cache_size_mb.asNum
  let imageIssues :=
    (if q < 1 ∨ q > 100 then ["Quality must be between 1-100"] else []) ++
    (if sp < 0 then ["Spacing cannot be negative"] else []) ++
    (if op < 0 ∨ op > 255 then ["Watermark opacity must be between 0-255"] else [])
  let perfIssues :=
    (if mw < 1 then ["Max workers must be at least 1"] else []) ++
    (if cs < 0 then ["Cache size cannot be negative"] else [])
  let advIssues :=
    if isValidLogLevel s.advanced_log_level then []
    else ["Log level must be one of: [\x27DEBUG\x27, \x27INFO\x27, \x27WARNING\x27, \x27ERROR\x27, \x27CRITICAL\x27]"]
  pure ((if imageIssues = [] then [] else [("image", imageIssues)]) ++
    (if perfIssues = [] then [] else [("performance", perfIssues)]) ++
    (if advIssues = [] then [] else [("advanced", advIssues)]))

/-! Helper lemmas about the embedding. -/

/-- Resolving the key string of a field finds that field. -/
theorem parseKey_toKey (f : FieldName) : parseKey f.toKey = some f := by
  cases f <;> rfl

theorem mk_asdict (now : Nat) (s : UserSettings) :
    mkUserSettings now (asdict s) = some s := by
  cases s
  rfl

theorem getF_setF_same (s : UserSettings) (f : FieldName) (v : Value) :
    getF (setF s f v) f = v := by
  cases f <;> rfl

theorem getF_setF_ne (s : UserSettings) (f g : FieldName) (v : Value) (h : f ≠ g) :
    getF (setF s f v) g = getF s g := by
  cases f <;> cases g <;> first | exact absurd rfl h | rfl


/-- First value bound to field `f` in a field-level key-value list. -/
def lookupF (f : FieldName) : List (FieldName × Value) → Option Value
  | [] => none
  | kv :: rest => if kv.1 = f then some kv.2 else lookupF f rest

/-- A JSON object whose keys are field names, as a string-level dict. -/
def toDict (fkvs : List (FieldName × Value)) : List (String × Value) :=
  fkvs.map (fun p => (p.1.toKey, p.2))

theorem lookupF_eq_none (f : FieldName) (fkvs : List (FieldName × Value))
    (h : f ∉ fkvs.map Prod.fst) : lookupF f fkvs = none := by
  induction fkvs with
  | nil => rfl
  | cons kv rest ih =>
      simp only [List.map_cons, List.mem_cons, not_or] at h
      show (if kv.1 = f then some kv.2 else lookupF f rest) = none
      rw [if_neg (fun hh => h.1 (Eq.symm hh))]
      exact ih h.2

theorem getF_foldl_setF (fkvs : List (FieldName × Value)) (s0 : UserSettings)
    (f : FieldName) (hnd : (fkvs.map Prod.fst).Nodup) :
    getF (fkvs.foldl (fun s kv => setF s kv.1 kv.2) s0) f =
      match lookupF f fkvs with
      | some v => v
      | none => getF s0 f := by
  induction fkvs generalizing s0 with
  | nil => rfl
  | cons kv rest ih =>
      simp only [List.map_cons, List.nodup_cons] at hnd
      simp only [List.foldl_cons, lookupF]
      by_cases hf : kv.1 = f
      · subst hf
        rw [if_pos rfl, ih _ hnd.2, lookupF_eq_none _ _ hnd.1]
        exact getF_setF_same s0 kv.1 kv.2
      · rw [if_neg hf, ih _ hnd.2]
        cases lookupF f rest with
        | some v => rfl
        | none => exact getF_setF_ne s0 kv.1 f kv.2 hf

theorem foldl_toDict (fkvs : List (FieldName × Value)) (s0 : UserSettings) :
    (toDict fkvs).foldl
      (fun s kv =>
        match parseKey kv.1 with
        | some f => setF s f kv.2
        | none => s) s0 =
      fkvs.foldl (fun s kv => setF s kv.1 kv.2) s0 := by
  induction fkvs generalizing s0 with
  | nil => rfl
  | cons kv rest ih =>
      simp only [toDict, List.map_cons, List.foldl_cons, parseKey_toKey]
      exact ih _

theorem allValid_toDict (fkvs : List (FieldName × Value)) :
    (toDict fkvs).all (fun kv => (parseKey kv.1).isSome) = true := by
  rw [List.all_eq_true]
  intro kv hmem
  simp only [toDict, List.mem_map] at hmem
  obtain ⟨p, hp, rfl⟩ := hmem
  simp [parseKey_toKey]

theorem mkUserSettings_toDict (now : Nat) (fkvs : List (FieldName × Value)) :
    mkUserSettings now (toDict fkvs) =
      some (fkvs.foldl (fun s kv => setF s kv.1 kv.2) (defaultSettings now)) := by
  unfold mkUserSettings
  rw [if_pos (allValid_toDict fkvs), foldl_toDict]

theorem mkUserSettings_eq_none (now : Nat) (kvs : List (String × Value))
    (h : ∃ kv ∈ kvs, parseKey kv.1 = none) :
    mkUserSettings now kvs = none := by
  unfold mkUserSettings
  rw [if_neg]
  intro hall
  rw [List.all_eq_true] at hall
  obtain ⟨kv, hmem, hk⟩ := h
  have := hall kv hmem
  rw [hk] at this
  exact Bool.noConfusion this

theorem getF_default_ne (t : Nat) (f : FieldName) (h : f ≠ .last_modified) :
    getF (defaultSettings t) f = getF (defaultSettings 0) f := by
  cases f <;> first | exact absurd rfl h | rfl

/-- C1: saving a record at instant t1 (with a clock not behind the record's
prior stamp) and then loading yields a record agreeing with the saved one on
every field except last_modified, which is the save instant and hence at
least the prior stamp. -/
theorem C1_save_load_round_trip (s : UserSettings) (fs : FS) (t0 t1 t2 : Nat)
    (hprior : s.last_modified = Value.vTime t0) (hclock : t0 ≤ t1) :
    (save_settings s fs t1 .ok).2.2 = true ∧
    (∀ f, f ≠ FieldName.last_modified →
      getF (load_settings (save_settings s fs t1 .ok).2.1 t2) f = getF s f) ∧
    (load_settings (save_settings s fs t1 .ok).2.1 t2).last_modified
      = Value.vTime t1 ∧
    t0 ≤ t1 := by
  have hload : load_settings (save_settings s fs t1 .ok).2.1 t2
      = { s with last_modified := Value.vTime t1 } := by
    show load_settings
        (fs.write settingsPath
          (.jsonObject (asdict { s with last_modified := Value.vTime t1 }))) t2 = _
    unfold load_settings FS.write
    simp [mk_asdict]
  refine ⟨rfl, ?_, ?_, hclock⟩
  · intro f hf
    rw [hload]
    exact getF_setF_ne s .last_modified f (Value.vTime t1) (Ne.symm hf)
  · rw [hload]

/-- C2: when the settings file is absent, malformed, not a JSON object, or an
object with a key that is not a field name, load_settings returns (without
raising, the embedding being total) the fresh default record, whose every
field other than last_modified is the documented default. -/
theorem C2_load_fallback (fs : FS) (now : Nat)
    (h : fs.files settingsPath = none ∨
      fs.files settingsPath = some .malformed ∨
      fs.files settingsPath = some .nonObject ∨
      ∃ kvs, fs.files settingsPath = some (.jsonObject kvs) ∧
        ∃ kv ∈ kvs, parseKey kv.1 = none) :
    load_settings fs now = defaultSettings now ∧
    ∀ f, f ≠ FieldName.last_modified →
      getF (load_settings fs now) f = getF (defaultSettings 0) f := by
  have hmain : load_settings fs now = defaultSettings now := by
    unfold load_settings
    rcases h with h | h | h | ⟨kvs, hf, hbad⟩
    · rw [h]
    · rw [h]
    · rw [h]
    · rw [hf]
      simp [mkUserSettings_eq_none now kvs hbad]
  refine ⟨hmain, fun f hf => ?_⟩
  rw [hmain]
  exact getF_default_ne now f hf

/-- C8: a successful backup followed, without intervening mutation, by a
restore of the backup path returns true and leaves the record (last_modified
included) unchanged; and restoring that backup after a set_setting mutation
reverts every field to the pre-mutation record. -/
theorem C8_backup_restore (s : UserSettings) (fs : FS) (tb tr tr2 : Nat)
    (key : String) (v : Value) :
    (backup_settings s fs tb .ok).2 = some (backupPath tb) ∧
    restore_settings s (backup_settings s fs tb .ok).1 tr (backupPath tb)
      = (s, true) ∧
    restore_settings ((set_setting s key v).1) (backup_settings s fs tb .ok).1
      tr2 (backupPath tb) = (s, true) := by
  have hread : ((backup_settings s fs tb .ok).1).files (backupPath tb)
      = some (.jsonObject (asdict s)) := by
    show (fs.write (backupPath tb) _).files (backupPath tb) = _
    unfold FS.write
    simp
  have hres : ∀ (cur : UserSettings) (t : Nat),
      restore_settings cur (backup_settings s fs tb .ok).1 t (backupPath tb)
        = (s, true) := by
    intro cur t
    unfold restore_settings
    rw [hread]
    simp [mk_asdict]
  exact ⟨rfl, hres s tr, hres _ tr2⟩

/-- C10: a save whose write fails (at open or partway through the dump)
returns false, yet the in-memory record has already been stamped with the
attempted save instant. -/
theorem C10_failed_save_stamps (s : UserSettings) (fs : FS) (now : Nat)
    (w : WriteOutcome) (hw : w ≠ .ok) :
    (save_settings s fs now w).2.2 = false ∧
    (save_settings s fs now w).1.last_modified = Value.vTime now := by
  cases w with
  | ok => exact absurd rfl hw
  | openFail => exact ⟨rfl, rfl⟩
  | writeFail => exact ⟨rfl, rfl⟩

/-- Restore and import have the same body against their path argument. -/
theorem import_eq_restore (s : UserSettings) (fs : FS) (now : Nat)
    (path : String) :
    import_settings s fs now path = restore_settings s fs now path := rfl

/-- Restore rejects a missing file, malformed JSON, a non-object, and an
object with an unknown key, returning the record unchanged with false. -/
theorem restore_rejects (s : UserSettings) (fs : FS) (now : Nat) (path : String)
    (h : fs.files path = none ∨ fs.files path = some .malformed ∨
      fs.files path = some .nonObject ∨
      ∃ kvs, fs.files path = some (.jsonObject kvs) ∧
        ∃ kv ∈ kvs, parseKey kv.1 = none) :
    restore_settings s fs now path = (s, false) := by
  unfold restore_settings
  rcases h with h | h | h | ⟨kvs, hf, hbad⟩
  · rw [h]
  · rw [h]
  · rw [h]
  · rw [hf]
    simp [mkUserSettings_eq_none now kvs hbad]

/-- Restore accepts any JSON object all of whose keys are field names. -/
theorem restore_accepts (s : UserSettings) (fs : FS) (now : Nat) (path : String)
    (kvs : List (String × Value))
    (hf : fs.files path = some (.jsonObject kvs))
    (hall : kvs.all (fun kv => (parseKey kv.1).isSome) = true) :
    (restore_settings s fs now path).2 = true := by
  unfold restore_settings
  rw [hf]
  dsimp only
  unfold mkUserSettings
  rw [if_pos hall]

/-- Restore of a file whose object binds field names to values replaces the
record with the fold of those assignments over the defaults. -/
theorem restore_toDict (s : UserSettings) (fs : FS) (now : Nat) (path : String)
    (fkvs : List (FieldName × Value))
    (hf : fs.files path = some (.jsonObject (toDict fkvs))) :
    restore_settings s fs now path =
      (fkvs.foldl (fun st kv => setF st kv.1 kv.2) (defaultSettings now), true) := by
  unfold restore_settings
  rw [hf]
  dsimp only
  rw [mkUserSettings_toDict]

/-- C3 counterexample: with the settings file holding the JSON object at the
explicit state below, a save whose dump fails partway (after open truncated
the file) returns false yet replaces the prior on-disk content with
unparseable bytes, refuting the claim that every I/O failure leaves the prior
content unchanged. -/
theorem C3_counterexample :
    ((save_settings (defaultSettings 0)
        ⟨fun p => if p = settingsPath then some (.jsonObject []) else none⟩
        1 .writeFail).2.2 = false) ∧
    ((⟨fun p => if p = settingsPath then some (.jsonObject []) else none⟩ :
        FS).files settingsPath = some (.jsonObject [])) ∧
    ((save_settings (defaultSettings 0)
        ⟨fun p => if p = settingsPath then some (.jsonObject []) else none⟩
        1 .writeFail).2.1.files settingsPath ≠ some (.jsonObject [])) := by
  decide

/-- C3 amended: save_settings returns false and raises nothing on any I/O
failure; a failure at file open leaves the file system untouched, but a dump
failing partway leaves the settings file truncated to unparseable bytes. -/
theorem C3_amended (s : UserSettings) (fs : FS) (now : Nat) (w : WriteOutcome)
    (hw : w ≠ .ok) :
    (save_settings s fs now w).2.2 = false ∧
    (w = .openFail → (save_settings s fs now w).2.1 = fs) ∧
    (w = .writeFail →
      (save_settings s fs now w).2.1.files settingsPath = some .malformed) := by
  cases w with
  | ok => exact absurd rfl hw
  | openFail => exact ⟨rfl, fun _ => rfl, fun h => WriteOutcome.noConfusion h⟩
  | writeFail =>
      refine ⟨rfl, fun h => WriteOutcome.noConfusion h, fun _ => ?_⟩
      show (fs.write settingsPath .malformed).files settingsPath = _
      unfold FS.write
      simp

/-- C4 counterexample: a file holding a JSON object with a strict subset of
the field names (a partial settings object) makes restore_settings return
true and replace the record, refuting the claim that such files return false
and leave every field as it was. -/
theorem C4_counterexample :
    ((restore_settings (defaultSettings 0)
        ⟨fun p => if p = "backup.json" then
          some (.jsonObject [("image_default_quality", Value.vInt 50)]) else none⟩
        1 "backup.json").2 = true) ∧
    ((restore_settings (defaultSettings 0)
        ⟨fun p => if p = "backup.json" then
          some (.jsonObject [("image_default_quality", Value.vInt 50)]) else none⟩
        1 "backup.json").1.image_default_quality
      ≠ (defaultSettings 0).image_default_quality) := by
  decide

/-- C4 amended: restore_settings and import_settings return false and leave
the in-memory record untouched on a missing file, malformed JSON, a
non-object, or an object with a key that is not a field name; but an object
all of whose keys are field names (even a strict subset of them) is
accepted: both return true. -/
theorem C4_amended (s : UserSettings) (fs : FS) (now : Nat) (path : String) :
    ((fs.files path = none ∨ fs.files path = some .malformed ∨
        fs.files path = some .nonObject ∨
        ∃ kvs, fs.files path = some (.jsonObject kvs) ∧
          ∃ kv ∈ kvs, parseKey kv.1 = none) →
      restore_settings s fs now path = (s, false) ∧
        import_settings s fs now path = (s, false)) ∧
    (∀ kvs, fs.files path = some (.jsonObject kvs) →
      kvs.all (fun kv => (parseKey kv.1).isSome) = true →
      (restore_settings s fs now path).2 = true ∧
        (import_settings s fs now path).2 = true) := by
  constructor
  · intro h
    have hr := restore_rejects s fs now path h
    exact ⟨hr, (import_eq_restore s fs now path).trans hr⟩
  · intro kvs hf hall
    have hr := restore_accepts s fs now path kvs hf hall
    exact ⟨hr, by rw [import_eq_restore]; exact hr⟩

/-- C7 counterexample: reset_to_defaults replaces the record with a fresh
default record whose last_modified default factory reads the clock, so a
reset at instant 5 of a record stamped at instant 3 changes last_modified to
the newly computed instant 5, refuting the claim that only save_settings
recomputes it. -/
theorem C7_counterexample :
    (defaultSettings 3).last_modified = Value.vTime 3 ∧
    (reset_to_defaults 5).last_modified = Value.vTime 5 ∧
    (reset_to_defaults 5).last_modified ≠ (defaultSettings 3).last_modified := by
  decide

/-- C7 amended: last_modified is recomputed by save_settings and also by
reset_to_defaults, whose fresh default record stamps the current instant;
set_setting on a key not resolving to the last_modified field preserves it
(backup_settings, export_settings and validate_settings read the record
without returning a modified one, so they change no field). -/
theorem C7_amended (s : UserSettings) (fs : FS) (now : Nat) (w : WriteOutcome)
    (key : String) (v : Value)
    (hkey : parseKey key ≠ some FieldName.last_modified) :
    (save_settings s fs now w).1.last_modified = Value.vTime now ∧
    (reset_to_defaults now).last_modified = Value.vTime now ∧
    ((set_setting s key v).1).last_modified = s.last_modified := by
  refine ⟨?_, rfl, ?_⟩
  · cases w <;> rfl
  · unfold set_setting
    cases hpk : parseKey key with
    | none => rfl
    | some f =>
        have hf : f ≠ FieldName.last_modified := fun he => hkey (he ▸ hpk)
        show (setF s f v).last_modified = s.last_modified
        exact getF_setF_ne s f .last_modified v hf

/-- C9: a file holding a JSON object whose keys are (a subset of the) field
names, with no key repeated, makes restore_settings and import_settings
return true and replace the record wholesale: each field present in the file
takes the file value and each absent field takes its documented default. -/
theorem C9_subset_replace (s : UserSettings) (fs : FS) (now : Nat)
    (path : String) (fkvs : List (FieldName × Value))
    (hfile : fs.files path = some (.jsonObject (toDict fkvs)))
    (hnd : (fkvs.map Prod.fst).Nodup) :
    ∃ r, restore_settings s fs now path = (r, true) ∧
      import_settings s fs now path = (r, true) ∧
      ∀ f, getF r f =
        match lookupF f fkvs with
        | some v => v
        | none => getF (defaultSettings now) f := by
  refine ⟨fkvs.foldl (fun st kv => setF st kv.1 kv.2) (defaultSettings now),
    restore_toDict s fs now path fkvs hfile,
    (import_eq_restore s fs now path).trans (restore_toDict s fs now path fkvs hfile),
    fun f => getF_foldl_setF fkvs (defaultSettings now) f hnd⟩

set_option maxHeartbeats 1600000 in
/-- C6: validate_settings mutates nothing (by construction it returns only
the issue map); on a record whose five numerically-checked fields hold
integers it raises nothing and returns the empty map exactly when quality is
in 1..100, spacing is nonnegative, opacity is in 0..255, max workers is at
least 1, cache size is nonnegative and the log level is one of the five
defined levels; and starting from the defaults, setting image_default_quality
to 150 makes it return exactly the image-category quality problem, while
setting it back to 95 makes it return the empty map. -/
theorem C6_validate :
    (∀ (s : UserSettings) (q sp op mw cs : Int),
      s.image_default_quality = Value.vInt q →
      s.image_default_spacing = Value.vInt sp →
      s.image_watermark_opacity = Value.vInt op →
      s.performance_max_workers = Value.vInt mw →
      s.performance_cache_size_mb = Value.vInt cs →
      ∃ issues, validate_settings s = some issues ∧
        (issues = [] ↔ (1 ≤ q ∧ q ≤ 100 ∧ 0 ≤ sp ∧ 0 ≤ op ∧ op ≤ 255 ∧
          1 ≤ mw ∧ 0 ≤ cs ∧ isValidLogLevel s.advanced_log_level = true))) ∧
    validate_settings
        ((set_setting (defaultSettings 0) "image_default_quality"
          (Value.vInt 150)).1)
      = some [("image", ["Quality must be between 1-100"])] ∧
    validate_settings
        ((set_setting
          ((set_setting (defaultSettings 0) "image_default_quality"
            (Value.vInt 150)).1)
          "image_default_quality" (Value.vInt 95)).1)
      = some [] := by
  refine ⟨?_, by rfl, by rfl⟩
  intro s q sp op mw cs hq hsp hop hmw hcs
  unfold validate_settings
  rw [hq, hsp, hop, hmw, hcs]
  simp only [Value.asNum, Option.bind_eq_bind, Option.some_bind]
  refine ⟨_, rfl, ?_⟩
  constructor
  · intro h
    split_ifs at h <;> simp_all
  · intro h
    obtain ⟨h1, h2, h3, h4, h5, h6, h7, h8⟩ := h
    split_ifs <;> simp_all <;> omega

/-- Witness for C1: the round trip at a concrete record, empty file system
and instants 0, 1, 2. -/
theorem C1_witness :
    (defaultSettings 0).last_modified = Value.vTime 0 ∧
    ((save_settings (defaultSettings 0) ⟨fun _ => none⟩ 1 .ok).2.2 = true ∧
      (∀ f, f ≠ FieldName.last_modified →
        getF (load_settings
          (save_settings (defaultSettings 0) ⟨fun _ => none⟩ 1 .ok).2.1 2) f
          = getF (defaultSettings 0) f) ∧
      (load_settings
        (save_settings (defaultSettings 0) ⟨fun _ => none⟩ 1 .ok).2.1
          2).last_modified = Value.vTime 1 ∧
      0 ≤ 1) :=
  ⟨rfl, C1_save_load_round_trip (defaultSettings 0) ⟨fun _ => none⟩ 0 1 2 rfl
    (Nat.zero_le 1)⟩

/-- Witness for C2: loading against a settings file holding malformed JSON
at instant 7. -/
theorem C2_witness :
    load_settings
        ⟨fun p => if p = settingsPath then some .malformed else none⟩ 7
      = defaultSettings 7 ∧
    ∀ f, f ≠ FieldName.last_modified →
      getF (load_settings
        ⟨fun p => if p = settingsPath then some .malformed else none⟩ 7) f
        = getF (defaultSettings 0) f :=
  C2_load_fallback ⟨fun p => if p = settingsPath then some .malformed else none⟩
    7 (Or.inr (Or.inl rfl))

/-- Witness for C3 (amended): a save failing at file open, at instant 4. -/
theorem C3_witness :
    (save_settings (defaultSettings 0) ⟨fun _ => none⟩ 4 .openFail).2.2
      = false ∧
    (WriteOutcome.openFail = .openFail →
      (save_settings (defaultSettings 0) ⟨fun _ => none⟩ 4 .openFail).2.1
        = ⟨fun _ => none⟩) ∧
    (WriteOutcome.openFail = .writeFail →
      (save_settings (defaultSettings 0) ⟨fun _ => none⟩ 4
        .openFail).2.1.files settingsPath = some .malformed) :=
  C3_amended (defaultSettings 0) ⟨fun _ => none⟩ 4 .openFail (by decide)

/-- Witness for C4 (amended): restore and import of a malformed file leave a
concrete record untouched and return false. -/
theorem C4_witness :
    restore_settings (defaultSettings 0)
        ⟨fun p => if p = "b.json" then some .malformed else none⟩ 3 "b.json"
      = (defaultSettings 0, false) ∧
    import_settings (defaultSettings 0)
        ⟨fun p => if p = "b.json" then some .malformed else none⟩ 3 "b.json"
      = (defaultSettings 0, false) :=
  (C4_amended (defaultSettings 0)
    ⟨fun p => if p = "b.json" then some .malformed else none⟩ 3 "b.json").1
    (Or.inr (Or.inl rfl))

/-- Witness for C6: validation of the default record, whose five checked
numeric fields hold 95, 10, 128, 4 and 128. -/
theorem C6_witness :
    ∃ issues, validate_settings (defaultSettings 0) = some issues ∧
      (issues = [] ↔ (1 ≤ (95 : Int) ∧ (95 : Int) ≤ 100 ∧ 0 ≤ (10 : Int) ∧
        0 ≤ (128 : Int) ∧ (128 : Int) ≤ 255 ∧ 1 ≤ (4 : Int) ∧
        0 ≤ (128 : Int) ∧
        isValidLogLevel (defaultSettings 0).advanced_log_level = true)) :=
  C6_validate.1 (defaultSettings 0) 95 10 128 4 128 rfl rfl rfl rfl rfl

/-- Witness for C7 (amended): a save at instant 9, a reset at instant 9, and
a set of image_default_quality, on a concrete record. -/
theorem C7_witness :
    (save_settings (defaultSettings 0) ⟨fun _ => none⟩ 9 .ok).1.last_modified
      = Value.vTime 9 ∧
    (reset_to_defaults 9).last_modified = Value.vTime 9 ∧
    ((set_setting (defaultSettings 0) "image_default_quality"
      (Value.vInt 50)).1).last_modified = (defaultSettings 0).last_modified :=
  C7_amended (defaultSettings 0) ⟨fun _ => none⟩ 9 .ok "image_default_quality"
    (Value.vInt 50) (by decide)

/-- Witness for C9: restoring a file that binds only image_default_quality,
at instant 2. -/
theorem C9_witness :
    ∃ r, restore_settings (defaultSettings 0)
        ⟨fun p => if p = "preset.json" then
          some (.jsonObject
            (toDict [(.image_default_quality, Value.vInt 50)])) else none⟩
        2 "preset.json" = (r, true) ∧
      import_settings (defaultSettings 0)
        ⟨fun p => if p = "preset.json" then
          some (.jsonObject
            (toDict [(.image_default_quality, Value.vInt 50)])) else none⟩
        2 "preset.json" = (r, true) ∧
      ∀ f, getF r f =
        match lookupF f [(.image_default_quality, Value.vInt 50)] with
        | some v => v
        | none => getF (defaultSettings 2) f :=
  C9_subset_replace (defaultSettings 0)
    ⟨fun p => if p = "preset.json" then
      some (.jsonObject
        (toDict [(.image_default_quality, Value.vInt 50)])) else none⟩
    2 "preset.json" [(.image_default_quality, Value.vInt 50)] rfl (by decide)

/-- Witness for C10: a save whose dump fails partway, at instant 6. -/
theorem C10_witness :
    (save_settings (defaultSettings 0) ⟨fun _ => none⟩ 6 .writeFail).2.2
      = false ∧
    (save_settings (defaultSettings 0) ⟨fun _ => none⟩ 6
      .writeFail).1.last_modified = Value.vTime 6 :=
  C10_failed_save_stamps (defaultSettings 0) ⟨fun _ => none⟩ 6 .writeFail
    (by decide)
